import Mathlib

/-!
# Verification of the esp32-time-weather firmware core

Shallow embedding of the repository's C sources:

* `src/components/common_i2c/common_i2c_init.c` — shared I2C bus registry
  (`i2c_shared_init`, `init_sensor`, `init_screen`, accessors);
* `src/main/main.c` — shared measurement store (`sensor_task` publish /
  `print_data` snapshot under `s_bme_lock`) and the sensor-string formatting;
* `src/main/sntp.c` — `wait_for_time_blocking`;
* `src/main/wifi.c` — the NVS initialization phase of `wifi_init_sta`.

Hardware and OS calls (`i2c_new_master_bus`, `esp_netif_sntp_sync_wait`,
`nvs_flash_init`, …) are modelled by environments that supply each call's
result; `ESP_ERROR_CHECK` is modelled as an abort outcome.
-/

namespace ESP32TW

/-- ESP-IDF `esp_err_t`: an integer result code, `ESP_OK = 0`. -/
abbrev esp_err_t := Int

/-- `ESP_OK` (0). -/
def ESP_OK : esp_err_t := 0

/-- `ESP_FAIL` (-1). -/
def ESP_FAIL : esp_err_t := -1

/-- `ESP_ERR_NVS_NO_FREE_PAGES` (0x110d). -/
def ESP_ERR_NVS_NO_FREE_PAGES : esp_err_t := 0x110d

/-- `ESP_ERR_NVS_NEW_VERSION_FOUND` (0x1110). -/
def ESP_ERR_NVS_NEW_VERSION_FOUND : esp_err_t := 0x1110

/-- `BME280_OK` (0), the success code of the BME280 vendor driver. -/
def BME280_OK : Int := 0

/-! ## Bus registry (`common_i2c_init.c`)

Module-level static state: the bus handle and the two device handles,
all NULL before initialization.  Handles are modelled as `Option Nat`
(`none` = NULL, `some h` = a non-null handle value `h`). -/

/-- The static module state of `common_i2c_init.c`:
`static i2c_master_bus_handle_t i2c_bus;`
`static i2c_master_dev_handle_t sensor_i2c_dev;`
`static i2c_master_dev_handle_t screen_i2c_dev;` -/
structure I2CState where
  i2c_bus : Option Nat
  sensor_i2c_dev : Option Nat
  screen_i2c_dev : Option Nat
deriving DecidableEq, Repr

/-- All three statics are zero-initialized (NULL) at program start. -/
def initialI2CState : I2CState := ⟨none, none, none⟩

/-- `i2c_master_bus_handle_t i2c_get_bus(void) { return i2c_bus; }` -/
def i2c_get_bus (s : I2CState) : Option Nat := s.i2c_bus

/-- `i2c_master_dev_handle_t i2c_get_bme280(void) { return sensor_i2c_dev; }` -/
def i2c_get_bme280 (s : I2CState) : Option Nat := s.sensor_i2c_dev

/-- `i2c_master_dev_handle_t i2c_get_ssd1306(void) { return screen_i2c_dev; }` -/
def i2c_get_ssd1306 (s : I2CState) : Option Nat := s.screen_i2c_dev

/-- Results the hardware/driver layer returns to one `i2c_shared_init` call:
`i2c_new_master_bus` and the two `i2c_master_bus_add_device` calls either
fail with an error code or produce a fresh non-null handle;
`configure_sensor_settings` returns a BME280 result code; the three
`ESP_ERROR_CHECK`ed calls of `init_screen` (`i2c_device_probe`,
`ssd1306_init`, `ssd1306_update`) return `esp_err_t` codes. -/
structure HwEnv where
  newBusResult : Except esp_err_t Nat
  addSsdResult : Except esp_err_t Nat
  addBmeResult : Except esp_err_t Nat
  sensorCfgResult : Int
  probeResult : esp_err_t
  ssdInitResult : esp_err_t
  ssdUpdateResult : esp_err_t

/-- Outcome of one `i2c_shared_init` call: `result = some e` means the call
returned the code `e`; `result = none` means an `ESP_ERROR_CHECK` aborted the
process.  `touchedHw` records whether any hardware call was made, and
`sensorErrLogged` whether `init_sensor` logged a `configure_sensor_settings`
failure. -/
structure InitOutcome where
  result : Option esp_err_t
  state : I2CState
  touchedHw : Bool
  sensorErrLogged : Bool
  screenReached : Bool
deriving DecidableEq, Repr

/-- `esp_err_t i2c_shared_init(...)` from `common_i2c_init.c:96-127`:
returns `ESP_OK` at once if `i2c_bus` is already non-null; otherwise creates
the bus (`ESP_RETURN_ON_ERROR`), attaches the SSD1306 then the BME280 device
(`ESP_RETURN_ON_ERROR` each), runs `init_sensor` (a configuration failure is
only logged), runs `init_screen` (probe / init / update failures abort via
`ESP_ERROR_CHECK`), and returns `ESP_OK`. -/
def i2c_shared_init (env : HwEnv) (s : I2CState) : InitOutcome :=
  if s.i2c_bus.isSome then
    ⟨some ESP_OK, s, false, false, false⟩
  else
    match env.newBusResult with
    | .error e => ⟨some e, s, true, false, false⟩
    | .ok busH =>
      let s1 : I2CState := { s with i2c_bus := some busH }
      match env.addSsdResult with
      | .error e => ⟨some e, s1, true, false, false⟩
      | .ok ssdH =>
        let s2 : I2CState := { s1 with screen_i2c_dev := some ssdH }
        match env.addBmeResult with
        | .error e => ⟨some e, s2, true, false, false⟩
        | .ok bmeH =>
          let s3 : I2CState := { s2 with sensor_i2c_dev := some bmeH }
          let logged := decide (env.sensorCfgResult ≠ BME280_OK)
          if env.probeResult ≠ ESP_OK then ⟨none, s3, true, logged, true⟩
          else if env.ssdInitResult ≠ ESP_OK then ⟨none, s3, true, logged, true⟩
          else if env.ssdUpdateResult ≠ ESP_OK then ⟨none, s3, true, logged, true⟩
          else ⟨some ESP_OK, s3, true, logged, true⟩

/-- A sequence of `i2c_shared_init` calls, threading the module state; an
aborted call halts the process, so no further calls happen. -/
def runInitSeq (s : I2CState) : List HwEnv → List InitOutcome
  | [] => []
  | e :: es =>
    let o := i2c_shared_init e s
    match o.result with
    | none => [o]
    | some _ => o :: runInitSeq o.state es

/-- Once the bus handle is set, every further `i2c_shared_init` call is a
no-op success that leaves the state unchanged. -/
theorem runInitSeq_of_busSome (s : I2CState) (hs : s.i2c_bus.isSome) :
    ∀ envs : List HwEnv,
      runInitSeq s envs =
        envs.map (fun _ => ⟨some ESP_OK, s, false, false, false⟩) := by
  intro envs
  induction envs with
  | nil => rfl
  | cons e es ih =>
    simp only [runInitSeq, i2c_shared_init, hs, if_pos]
    simpa using ih

/-- A hardware environment in which every call succeeds: the bus handle is 1,
the SSD1306 device handle 2, the BME280 device handle 3. -/
def okEnv : HwEnv := ⟨.ok 1, .ok 2, .ok 3, 0, 0, 0, 0⟩

/-- A hardware environment in which `i2c_new_master_bus` fails with `ESP_FAIL`. -/
def busFailEnv : HwEnv := ⟨.error ESP_FAIL, .error ESP_FAIL, .error ESP_FAIL, 0, 0, 0, 0⟩

/-- Bus creation succeeds (handle 1) but attaching the SSD1306 device fails. -/
def ssdFailEnv : HwEnv := ⟨.ok 1, .error ESP_FAIL, .ok 3, 0, 0, 0, 0⟩

/-- Everything succeeds up to the display probe, which fails with `ESP_FAIL`. -/
def probeFailEnv : HwEnv := ⟨.ok 1, .ok 2, .ok 3, 0, ESP_FAIL, 0, 0⟩

/-- Every hardware call succeeds but `configure_sensor_settings` returns -1. -/
def cfgFailEnv : HwEnv := ⟨.ok 1, .ok 2, .ok 3, -1, 0, 0, 0⟩

/-- If the first call creates the bus (handle `n`), the resulting module state
has `i2c_bus = some n`, whatever happens afterwards in that call. -/
theorem i2c_shared_init_bus_set (e : HwEnv) (n : Nat) (hb : e.newBusResult = .ok n) :
    (i2c_shared_init e initialI2CState).state.i2c_bus = some n := by
  simp only [i2c_shared_init, initialI2CState, hb, Option.isSome_none, Bool.false_eq_true,
    if_false]
  cases e.addSsdResult with
  | error e2 => rfl
  | ok ssdH =>
    cases e.addBmeResult with
    | error e3 => rfl
    | ok bmeH => split_ifs <;> rfl

/-- **C2 (counterexample).** The claim "for every sequence of calls to
`i2c_shared_init`, only the first call performs hardware setup; every
subsequent call returns success (ESP_OK) immediately without touching
hardware" is false as stated: if the first call fails to create the bus
(`i2c_new_master_bus` returns `ESP_FAIL`), `i2c_bus` stays NULL, so the
second call touches hardware again and returns `ESP_FAIL`, not `ESP_OK`. -/
theorem c2_counterexample :
    ((runInitSeq initialI2CState [busFailEnv, busFailEnv]).map
        (fun o => (o.result, o.touchedHw)) =
      [(some ESP_FAIL, true), (some ESP_FAIL, true)]) ∧ ESP_FAIL ≠ ESP_OK := by
  exact ⟨rfl, by decide⟩

/-- **C2 (amended).** For every sequence of calls whose first call succeeds in
creating the bus, only the first call performs hardware setup: every
subsequent call returns `ESP_OK` immediately without touching hardware, leaves
the module state unchanged, and each accessor returns the same handle value it
returned after the first call. -/
theorem c2_init_idempotent_after_bus_created (e₁ : HwEnv) (envs : List HwEnv)
    (n : Nat) (hb : e₁.newBusResult = .ok n) :
    ∀ o ∈ (runInitSeq initialI2CState (e₁ :: envs)).tail,
      o.result = some ESP_OK ∧ o.touchedHw = false ∧
      o.state = (i2c_shared_init e₁ initialI2CState).state ∧
      i2c_get_bus o.state = i2c_get_bus (i2c_shared_init e₁ initialI2CState).state ∧
      i2c_get_bme280 o.state = i2c_get_bme280 (i2c_shared_init e₁ initialI2CState).state ∧
      i2c_get_ssd1306 o.state = i2c_get_ssd1306 (i2c_shared_init e₁ initialI2CState).state := by
  intro o ho
  have hbus : (i2c_shared_init e₁ initialI2CState).state.i2c_bus.isSome := by
    rw [i2c_shared_init_bus_set e₁ n hb]; rfl
  have hrun := runInitSeq_of_busSome (i2c_shared_init e₁ initialI2CState).state hbus envs
  simp only [runInitSeq] at ho
  rcases hres : (i2c_shared_init e₁ initialI2CState).result with _ | code
  · rw [hres] at ho; simp at ho
  · rw [hres] at ho
    simp only [List.tail_cons, hrun, List.mem_map] at ho
    obtain ⟨_, _, rfl⟩ := ho
    exact ⟨rfl, rfl, rfl, rfl, rfl, rfl⟩

/-- **C2 witness.** A concrete run: a fully successful first call followed by a
second call; the second call is a no-op success with unchanged handles. -/
theorem c2_witness :
    (⟨some ESP_OK, ⟨some 1, some 3, some 2⟩, false, false, false⟩ : InitOutcome).result
        = some ESP_OK ∧
    (⟨some ESP_OK, ⟨some 1, some 3, some 2⟩, false, false, false⟩ : InitOutcome).touchedHw
        = false ∧
    (⟨some ESP_OK, ⟨some 1, some 3, some 2⟩, false, false, false⟩ : InitOutcome).state
        = (i2c_shared_init okEnv initialI2CState).state ∧
    i2c_get_bus (⟨some ESP_OK, ⟨some 1, some 3, some 2⟩, false, false, false⟩ : InitOutcome).state
        = i2c_get_bus (i2c_shared_init okEnv initialI2CState).state ∧
    i2c_get_bme280 (⟨some ESP_OK, ⟨some 1, some 3, some 2⟩, false, false, false⟩ : InitOutcome).state
        = i2c_get_bme280 (i2c_shared_init okEnv initialI2CState).state ∧
    i2c_get_ssd1306 (⟨some ESP_OK, ⟨some 1, some 3, some 2⟩, false, false, false⟩ : InitOutcome).state
        = i2c_get_ssd1306 (i2c_shared_init okEnv initialI2CState).state :=
  c2_init_idempotent_after_bus_created okEnv [okEnv] 1 rfl _ (by decide)

/-- **C3.** If the first `i2c_shared_init` call creates the bus but the first
`i2c_master_bus_add_device` call (the SSD1306 attach) fails with `err`, the
call returns `err` leaving `i2c_bus` set and both device handles NULL; every
subsequent `i2c_shared_init` call returns `ESP_OK` immediately without touching
hardware, and `i2c_get_bme280` / `i2c_get_ssd1306` return NULL from then on:
the partial failure is never rolled back nor retried. -/
theorem c3_partial_failure_never_retried (e₁ : HwEnv) (envs : List HwEnv)
    (n : Nat) (err : esp_err_t)
    (hb : e₁.newBusResult = .ok n) (hs : e₁.addSsdResult = .error err) :
    (i2c_shared_init e₁ initialI2CState).result = some err ∧
    (i2c_shared_init e₁ initialI2CState).state = ⟨some n, none, none⟩ ∧
    ∀ o ∈ runInitSeq (i2c_shared_init e₁ initialI2CState).state envs,
      o.result = some ESP_OK ∧ o.touchedHw = false ∧
      i2c_get_bme280 o.state = none ∧ i2c_get_ssd1306 o.state = none := by
  have hout : i2c_shared_init e₁ initialI2CState =
      ⟨some err, ⟨some n, none, none⟩, true, false, false⟩ := by
    simp [i2c_shared_init, initialI2CState, hb, hs]
  refine ⟨by rw [hout], by rw [hout], ?_⟩
  intro o ho
  rw [hout] at ho
  rw [runInitSeq_of_busSome ⟨some n, none, none⟩ rfl envs] at ho
  simp only [List.mem_map] at ho
  obtain ⟨_, _, rfl⟩ := ho
  exact ⟨rfl, rfl, rfl, rfl⟩

/-- **C3 witness.** Concrete instance: bus handle 1 created, SSD1306 attach
fails with `ESP_FAIL`, then one more `i2c_shared_init` call. -/
theorem c3_witness :
    (i2c_shared_init ssdFailEnv initialI2CState).result = some ESP_FAIL ∧
    (i2c_shared_init ssdFailEnv initialI2CState).state = ⟨some 1, none, none⟩ ∧
    ∀ o ∈ runInitSeq (i2c_shared_init ssdFailEnv initialI2CState).state [okEnv],
      o.result = some ESP_OK ∧ o.touchedHw = false ∧
      i2c_get_bme280 o.state = none ∧ i2c_get_ssd1306 o.state = none :=
  c3_partial_failure_never_retried ssdFailEnv [okEnv] 1 ESP_FAIL rfl rfl

/-- **C5.** If the bus and both devices are set up but the display does not
answer the probe at its fixed address (`i2c_device_probe` returns a non-OK
code), `i2c_shared_init` aborts the process (`ESP_ERROR_CHECK`): it neither
returns an error code nor proceeds normally. -/
theorem c5_probe_failure_aborts (e : HwEnv) (n m k : Nat)
    (hb : e.newBusResult = .ok n) (hs : e.addSsdResult = .ok m)
    (hd : e.addBmeResult = .ok k) (hp : e.probeResult ≠ ESP_OK) :
    (i2c_shared_init e initialI2CState).result = none ∧
    (i2c_shared_init e initialI2CState).screenReached = true := by
  simp [i2c_shared_init, initialI2CState, hb, hs, hd, hp]

/-- **C5 witness.** Concrete instance: all attach calls succeed, the probe
returns `ESP_FAIL`: the call aborts. -/
theorem c5_witness :
    (i2c_shared_init probeFailEnv initialI2CState).result = none ∧
    (i2c_shared_init probeFailEnv initialI2CState).screenReached = true :=
  c5_probe_failure_aborts probeFailEnv 1 2 3 rfl rfl rfl (by decide)

/-- **C6.** For every result code of `configure_sensor_settings` (the
`sensorCfgResult` field is unconstrained here), `init_sensor` only logs the
failure: `i2c_shared_init` still reaches `init_screen`, and when the screen
calls succeed it still returns `ESP_OK` — a sensor configuration failure is
never propagated to the caller. -/
theorem c6_sensor_cfg_failure_tolerated (e : HwEnv) (n m k : Nat)
    (hb : e.newBusResult = .ok n) (hs : e.addSsdResult = .ok m)
    (hd : e.addBmeResult = .ok k) (hp : e.probeResult = ESP_OK)
    (hi : e.ssdInitResult = ESP_OK) (hu : e.ssdUpdateResult = ESP_OK) :
    (i2c_shared_init e initialI2CState).result = some ESP_OK ∧
    (i2c_shared_init e initialI2CState).screenReached = true ∧
    (i2c_shared_init e initialI2CState).sensorErrLogged
      = decide (e.sensorCfgResult ≠ BME280_OK) := by
  simp [i2c_shared_init, initialI2CState, hb, hs, hd, hp, hi, hu]

/-- **C6 witness.** Concrete instance: `configure_sensor_settings` returns -1
(a failure code); initialization still reaches the screen and returns
`ESP_OK`, having logged the failure. -/
theorem c6_witness :
    (i2c_shared_init cfgFailEnv initialI2CState).result = some ESP_OK ∧
    (i2c_shared_init cfgFailEnv initialI2CState).screenReached = true ∧
    (i2c_shared_init cfgFailEnv initialI2CState).sensorErrLogged
      = decide (cfgFailEnv.sensorCfgResult ≠ BME280_OK) :=
  c6_sensor_cfg_failure_tolerated cfgFailEnv 1 2 3 rfl rfl rfl rfl rfl rfl

/-- **C8.** Before `i2c_shared_init` has run (the zero-initialized module
state), each accessor returns NULL; and each accessor is pure: it merely
projects the module state (`i2c_get_bus` reads `i2c_bus`, `i2c_get_bme280`
reads `sensor_i2c_dev`, `i2c_get_ssd1306` reads `screen_i2c_dev`), modifying
nothing. -/
theorem c8_accessors_null_before_init :
    i2c_get_bus initialI2CState = none ∧
    i2c_get_bme280 initialI2CState = none ∧
    i2c_get_ssd1306 initialI2CState = none ∧
    ∀ s : I2CState,
      i2c_get_bus s = s.i2c_bus ∧
      i2c_get_bme280 s = s.sensor_i2c_dev ∧
      i2c_get_ssd1306 s = s.screen_i2c_dev :=
  ⟨rfl, rfl, rfl, fun _ => ⟨rfl, rfl, rfl⟩⟩

/-! ## Shared measurement store (`main.c`)

`sensor_task` publishes a whole `struct bme280_data` into the static
`bme280_device_data` under `s_bme_lock`; `print_data` reads the three fields
under the same lock.  We model the two tasks at field granularity: each
critical section is a sequence of micro-steps (acquire, three field
accesses, release), and an arbitrary scheduler interleaves the two tasks.
The mutex is what rules out mixed snapshots, and that is exactly what the
invariant proof below establishes. -/

/-- `struct bme280_data` (double fields, modelled as exact rationals). -/
@[ext] structure bme280_data where
  pressure : ℚ
  temperature : ℚ
  humidity : ℚ
deriving DecidableEq, Repr

/-- `static struct bme280_data bme280_device_data = {0};` -/
def zeroData : bme280_data := ⟨0, 0, 0⟩

/-- Which task the scheduler runs for one micro-step. -/
inductive Turn where
  | writer
  | reader
deriving DecidableEq, Repr

/-- Joint state of `sensor_task` (writer), `print_data` (reader), the shared
record `bme280_device_data` and the mutex `s_bme_lock`.
`wpc`/`rpc` are positions inside the critical sections (0 = before
`xSemaphoreTake`, 1-3 = before each field access, 4 = before
`xSemaphoreGive`).  `pending` holds the records the sensor will read and
publish; `published` the records of completed publishes; `buf` the reader's
locals; `outs` the completed snapshots. -/
structure SysState where
  shared : bme280_data
  lock : Option Turn
  wpc : Nat
  pending : List bme280_data
  published : List bme280_data
  rpc : Nat
  buf : bme280_data
  outs : List bme280_data
deriving DecidableEq, Repr

/-- One micro-step of `sensor_task`: take the lock, copy `tmp` into
`bme280_device_data` field by field, give the lock back (completing the
publish).  Blocked on a held lock, the task does nothing. -/
def writerStep (s : SysState) : SysState :=
  match s.pending with
  | [] => s
  | r :: rest =>
    if s.wpc = 0 then
      if s.lock = none then { s with lock := some Turn.writer, wpc := 1 } else s
    else if s.wpc = 1 then
      { s with shared := { s.shared with pressure := r.pressure }, wpc := 2 }
    else if s.wpc = 2 then
      { s with shared := { s.shared with temperature := r.temperature }, wpc := 3 }
    else if s.wpc = 3 then
      { s with shared := { s.shared with humidity := r.humidity }, wpc := 4 }
    else
      { s with lock := none, wpc := 0, pending := rest,
               published := s.published ++ [r] }

/-- One micro-step of `print_data`'s protected read: take the lock, read the
three fields of `bme280_device_data` into locals, give the lock back
(completing the snapshot).  Blocked on a held lock, the task does nothing. -/
def readerStep (s : SysState) : SysState :=
  if s.rpc = 0 then
    if s.lock = none then { s with lock := some Turn.reader, rpc := 1 } else s
  else if s.rpc = 1 then
    { s with buf := { s.buf with pressure := s.shared.pressure }, rpc := 2 }
  else if s.rpc = 2 then
    { s with buf := { s.buf with temperature := s.shared.temperature }, rpc := 3 }
  else if s.rpc = 3 then
    { s with buf := { s.buf with humidity := s.shared.humidity }, rpc := 4 }
  else
    { s with lock := none, rpc := 0, outs := s.outs ++ [s.buf] }

/-- Run the task picked by the scheduler for one micro-step. -/
def step (s : SysState) : Turn → SysState
  | .writer => writerStep s
  | .reader => readerStep s

/-- Run a whole schedule (an arbitrary interleaving of the two tasks). -/
def run (s : SysState) : List Turn → SysState
  | [] => s
  | t :: ts => run (step s t) ts

/-- Startup state: zero-initialized shared record, free mutex, both tasks
before their critical sections. -/
def initSys (pending : List bme280_data) : SysState :=
  ⟨zeroData, none, 0, pending, [], 0, zeroData, []⟩

/-- The shared record is the all-zero initial record or the record of some
completed publish. -/
def consistentData (s : SysState) : Prop :=
  s.shared = zeroData ∨ s.shared ∈ s.published

/-- Inductive invariant of the store machine: the mutex is held exactly by
the task inside its critical section, the shared record is consistent
whenever the writer is not mid-copy, the partially copied fields agree with
the record being written (resp. read), and every completed snapshot is the
zero record or a completed publish. -/
structure StoreInv (s : SysState) : Prop where
  lockW : s.lock = some Turn.writer ↔ 1 ≤ s.wpc
  lockR : s.lock = some Turn.reader ↔ 1 ≤ s.rpc
  wpcLe : s.wpc ≤ 4
  rpcLe : s.rpc ≤ 4
  pendingNe : 1 ≤ s.wpc → s.pending ≠ []
  consist : s.wpc ≤ 1 → consistentData s
  partialW : ∀ r rest, s.pending = r :: rest →
      (s.wpc = 2 → s.shared.pressure = r.pressure) ∧
      (s.wpc = 3 → s.shared.pressure = r.pressure ∧
                   s.shared.temperature = r.temperature) ∧
      (s.wpc = 4 → s.shared = r)
  partialR2 : s.rpc = 2 → s.buf.pressure = s.shared.pressure
  partialR3 : s.rpc = 3 → s.buf.pressure = s.shared.pressure ∧
                          s.buf.temperature = s.shared.temperature
  partialR4 : s.rpc = 4 → s.buf = s.shared
  outsOk : ∀ x ∈ s.outs, x = zeroData ∨ x ∈ s.published

/-- Mutual exclusion: if the writer is inside its critical section the reader
is outside it. -/
theorem StoreInv.rpc_zero (h : StoreInv s) (hw : 1 ≤ s.wpc) : s.rpc = 0 := by
  by_contra hr
  have h1 := h.lockW.mpr hw
  have h2 := h.lockR.mpr (by omega)
  rw [h1] at h2
  exact absurd (Option.some.inj h2) (by intro hc; cases hc)

/-- Mutual exclusion: if the reader is inside its critical section the writer
is outside it. -/
theorem StoreInv.wpc_zero (h : StoreInv s) (hr : 1 ≤ s.rpc) : s.wpc = 0 := by
  by_contra hw
  have h1 := h.lockW.mpr (by omega)
  have h2 := h.lockR.mpr hr
  rw [h1] at h2
  exact absurd (Option.some.inj h2) (by intro hc; cases hc)

/-- A free mutex means both tasks are outside their critical sections. -/
theorem StoreInv.pcs_zero (h : StoreInv s) (hl : s.lock = none) :
    s.wpc = 0 ∧ s.rpc = 0 := by
  constructor
  · by_contra hw
    have := h.lockW.mpr (by omega)
    rw [hl] at this; cases this
  · by_contra hr
    have := h.lockR.mpr (by omega)
    rw [hl] at this; cases this

/-- `writerStep` preserves the store invariant. -/
theorem storeInv_writerStep (s : SysState) (h : StoreInv s) :
    StoreInv (writerStep s) := by
  cases hp : s.pending with
  | nil => simpa [writerStep, hp] using h
  | cons r rest =>
    have hwle := h.wpcLe
    have hcase : s.wpc = 0 ∨ s.wpc = 1 ∨ s.wpc = 2 ∨ s.wpc = 3 ∨ s.wpc = 4 := by
      omega
    rcases hcase with hw | hw | hw | hw | hw
    · rcases hl : s.lock with _ | t
      · -- acquire the free mutex
        have hz := h.pcs_zero hl
        have hstep : writerStep s = { s with lock := some Turn.writer, wpc := 1 } := by
          simp [writerStep, hp, hw, hl]
        rw [hstep]
        refine ⟨?_, ?_, ?_, ?_, ?_, ?_, ?_, ?_, ?_, ?_, ?_⟩
        · simp
        · simp [hz.2]
        · simp
        · exact h.rpcLe
        · simp [hp]
        · intro _; exact h.consist (by omega)
        · intro r' rest' hpr; simp
        · simp [hz.2]
        · simp [hz.2]
        · simp [hz.2]
        · exact h.outsOk
      · -- blocked on a held mutex
        have hstep : writerStep s = s := by simp [writerStep, hp, hw, hl]
        rw [hstep]; exact h
    · -- write the pressure field
      have hlock := h.lockW.mpr (by omega)
      have hr0 := h.rpc_zero (by omega)
      have hstep : writerStep s =
          { s with shared := { s.shared with pressure := r.pressure }, wpc := 2 } := by
        simp [writerStep, hp, hw]
      rw [hstep]
      refine ⟨?_, ?_, ?_, ?_, ?_, ?_, ?_, ?_, ?_, ?_, ?_⟩
      · simp [hlock]
      · simp [hlock, hr0]
      · simp
      · exact h.rpcLe
      · simp [hp]
      · simp
      · intro r' rest' hpr
        rw [hp] at hpr
        obtain ⟨rfl, rfl⟩ : r' = r ∧ rest' = rest := by
          injection hpr with h1 h2; exact ⟨h1.symm, h2.symm⟩
        simp
      · simp [hr0]
      · simp [hr0]
      · simp [hr0]
      · exact h.outsOk
    · -- write the temperature field
      have hlock := h.lockW.mpr (by omega)
      have hr0 := h.rpc_zero (by omega)
      have hpw := (h.partialW r rest hp).1 hw
      have hstep : writerStep s =
          { s with shared := { s.shared with temperature := r.temperature },
                   wpc := 3 } := by
        simp [writerStep, hp, hw]
      rw [hstep]
      refine ⟨?_, ?_, ?_, ?_, ?_, ?_, ?_, ?_, ?_, ?_, ?_⟩
      · simp [hlock]
      · simp [hlock, hr0]
      · simp
      · exact h.rpcLe
      · simp [hp]
      · simp
      · intro r' rest' hpr
        rw [hp] at hpr
        obtain ⟨rfl, rfl⟩ : r' = r ∧ rest' = rest := by
          injection hpr with h1 h2; exact ⟨h1.symm, h2.symm⟩
        simp [hpw]
      · simp [hr0]
      · simp [hr0]
      · simp [hr0]
      · exact h.outsOk
    · -- write the humidity field
      have hlock := h.lockW.mpr (by omega)
      have hr0 := h.rpc_zero (by omega)
      have hpw := (h.partialW r rest hp).2.1 hw
      have hstep : writerStep s =
          { s with shared := { s.shared with humidity := r.humidity }, wpc := 4 } := by
        simp [writerStep, hp, hw]
      rw [hstep]
      refine ⟨?_, ?_, ?_, ?_, ?_, ?_, ?_, ?_, ?_, ?_, ?_⟩
      · simp [hlock]
      · simp [hlock, hr0]
      · simp
      · exact h.rpcLe
      · simp [hp]
      · simp
      · intro r' rest' hpr
        rw [hp] at hpr
        obtain ⟨rfl, rfl⟩ : r' = r ∧ rest' = rest := by
          injection hpr with h1 h2; exact ⟨h1.symm, h2.symm⟩
        refine ⟨by simp, by simp, ?_⟩
        intro _
        ext <;> simp [hpw.1, hpw.2]
      · simp [hr0]
      · simp [hr0]
      · simp [hr0]
      · exact h.outsOk
    · -- release the mutex: the publish completes
      have hlock := h.lockW.mpr (by omega)
      have hr0 := h.rpc_zero (by omega)
      have hsh := (h.partialW r rest hp).2.2 hw
      have hstep : writerStep s =
          { s with lock := none, wpc := 0, pending := rest,
                   published := s.published ++ [r] } := by
        simp [writerStep, hp, hw]
      rw [hstep]
      refine ⟨?_, ?_, ?_, ?_, ?_, ?_, ?_, ?_, ?_, ?_, ?_⟩
      · simp
      · simp [hr0]
      · simp
      · exact h.rpcLe
      · simp
      · intro _
        right
        simp [hsh]
      · intro r' rest' hpr; simp
      · simp [hr0]
      · simp [hr0]
      · simp [hr0]
      · intro x hx
        rcases h.outsOk x hx with hz | hm
        · exact Or.inl hz
        · exact Or.inr (List.mem_append_left _ hm)

/-- `readerStep` preserves the store invariant. -/
theorem storeInv_readerStep (s : SysState) (h : StoreInv s) :
    StoreInv (readerStep s) := by
  have hrle := h.rpcLe
  have hcase : s.rpc = 0 ∨ s.rpc = 1 ∨ s.rpc = 2 ∨ s.rpc = 3 ∨ s.rpc = 4 := by
    omega
  rcases hcase with hr | hr | hr | hr | hr
  · rcases hl : s.lock with _ | t
    · -- acquire the free mutex
      have hz := h.pcs_zero hl
      have hstep : readerStep s = { s with lock := some Turn.reader, rpc := 1 } := by
        simp [readerStep, hr, hl]
      rw [hstep]
      refine ⟨?_, ?_, ?_, ?_, ?_, ?_, ?_, ?_, ?_, ?_, ?_⟩
      · simp [hz.1]
      · simp
      · exact h.wpcLe
      · simp
      · exact h.pendingNe
      · exact fun _ => h.consist (by omega)
      · exact h.partialW
      · simp
      · simp
      · simp
      · exact h.outsOk
    · -- blocked on a held mutex
      have hstep : readerStep s = s := by simp [readerStep, hr, hl]
      rw [hstep]; exact h
  · -- read the pressure field
    have hlock := h.lockR.mpr (by omega)
    have hw0 := h.wpc_zero (by omega)
    have hstep : readerStep s =
        { s with buf := { s.buf with pressure := s.shared.pressure }, rpc := 2 } := by
      simp [readerStep, hr]
    rw [hstep]
    refine ⟨?_, ?_, ?_, ?_, ?_, ?_, ?_, ?_, ?_, ?_, ?_⟩
    · simp [hlock, hw0]
    · simp [hlock]
    · exact h.wpcLe
    · simp
    · exact h.pendingNe
    · exact fun _ => h.consist (by omega)
    · exact h.partialW
    · simp
    · simp
    · simp
    · exact h.outsOk
  · -- read the temperature field
    have hlock := h.lockR.mpr (by omega)
    have hw0 := h.wpc_zero (by omega)
    have hb := h.partialR2 hr
    have hstep : readerStep s =
        { s with buf := { s.buf with temperature := s.shared.temperature },
                 rpc := 3 } := by
      simp [readerStep, hr]
    rw [hstep]
    refine ⟨?_, ?_, ?_, ?_, ?_, ?_, ?_, ?_, ?_, ?_, ?_⟩
    · simp [hlock, hw0]
    · simp [hlock]
    · exact h.wpcLe
    · simp
    · exact h.pendingNe
    · exact fun _ => h.consist (by omega)
    · exact h.partialW
    · simp
    · simp [hb]
    · simp
    · exact h.outsOk
  · -- read the humidity field
    have hlock := h.lockR.mpr (by omega)
    have hw0 := h.wpc_zero (by omega)
    have hb := h.partialR3 hr
    have hstep : readerStep s =
        { s with buf := { s.buf with humidity := s.shared.humidity }, rpc := 4 } := by
      simp [readerStep, hr]
    rw [hstep]
    refine ⟨?_, ?_, ?_, ?_, ?_, ?_, ?_, ?_, ?_, ?_, ?_⟩
    · simp [hlock, hw0]
    · simp [hlock]
    · exact h.wpcLe
    · simp
    · exact h.pendingNe
    · exact fun _ => h.consist (by omega)
    · exact h.partialW
    · simp
    · simp
    · intro _
      ext <;> simp [hb.1, hb.2]
    · exact h.outsOk
  · -- release the mutex: the snapshot completes
    have hlock := h.lockR.mpr (by omega)
    have hw0 := h.wpc_zero (by omega)
    have hbuf := h.partialR4 hr
    have hcons := h.consist (by omega)
    have hstep : readerStep s =
        { s with lock := none, rpc := 0, outs := s.outs ++ [s.buf] } := by
      simp [readerStep, hr]
    rw [hstep]
    refine ⟨?_, ?_, ?_, ?_, ?_, ?_, ?_, ?_, ?_, ?_, ?_⟩
    · simp [hw0]
    · simp
    · exact h.wpcLe
    · simp
    · exact h.pendingNe
    · exact fun _ => h.consist (by omega)
    · exact h.partialW
    · simp
    · simp
    · simp
    · intro x hx
      rcases List.mem_append.mp hx with hx | hx
      · exact h.outsOk x hx
      · rw [List.mem_singleton.mp hx, hbuf]
        exact hcons

/-- `step` preserves the store invariant, whichever task the scheduler runs. -/
theorem storeInv_step (s : SysState) (h : StoreInv s) (t : Turn) :
    StoreInv (step s t) := by
  cases t with
  | writer => exact storeInv_writerStep s h
  | reader => exact storeInv_readerStep s h

/-- The store invariant holds along every schedule. -/
theorem storeInv_run (s : SysState) (h : StoreInv s) (ts : List Turn) :
    StoreInv (run s ts) := by
  induction ts generalizing s with
  | nil => exact h
  | cons t ts ih => exact ih (step s t) (storeInv_step s h t)

/-- The startup state satisfies the store invariant. -/
theorem storeInv_initSys (pending : List bme280_data) :
    StoreInv (initSys pending) := by
  refine ⟨?_, ?_, ?_, ?_, ?_, ?_, ?_, ?_, ?_, ?_, ?_⟩ <;>
    simp [initSys, consistentData]

/-- **C1.** For every list of records the sensor produces and every
interleaving of the two tasks' micro-steps, each record observed by a
completed snapshot of `print_data` is either the all-zero initial record or
exactly the record written by one completed publish of `sensor_task` — never
a record mixing fields from two different publish calls. -/
theorem c1_snapshot_never_mixed (pending : List bme280_data) (sched : List Turn) :
    ∀ x ∈ (run (initSys pending) sched).outs,
      x = zeroData ∨ x ∈ (run (initSys pending) sched).published :=
  (storeInv_run (initSys pending) (storeInv_initSys pending) sched).outsOk

/-- **C1 witness.** Concrete run: `sensor_task` publishes `⟨1, 2, 3⟩`
(five writer steps), then `print_data` snapshots it (five reader steps);
the observed record is that publish. -/
theorem c1_witness :
    (⟨1, 2, 3⟩ : bme280_data) = zeroData ∨
    (⟨1, 2, 3⟩ : bme280_data) ∈
      (run (initSys [⟨1, 2, 3⟩])
        [Turn.writer, Turn.writer, Turn.writer, Turn.writer, Turn.writer,
         Turn.reader, Turn.reader, Turn.reader, Turn.reader, Turn.reader]).published :=
  c1_snapshot_never_mixed [⟨1, 2, 3⟩]
    [Turn.writer, Turn.writer, Turn.writer, Turn.writer, Turn.writer,
     Turn.reader, Turn.reader, Turn.reader, Turn.reader, Turn.reader]
    ⟨1, 2, 3⟩ (by decide)

/-- **C10.** Snapshot is idempotent and read-only: from any store state with a
free lock and the reader about to start, running two complete snapshots with
no intervening publish (ten reader micro-steps, the writer never scheduled)
appends the same record twice to the observed outputs and leaves the stored
record unchanged. -/
theorem c10_snapshot_idempotent (sh buf0 : bme280_data) (w0 : Nat)
    (pend pub outs0 : List bme280_data) :
    (run ⟨sh, none, w0, pend, pub, 0, buf0, outs0⟩
        [Turn.reader, Turn.reader, Turn.reader, Turn.reader, Turn.reader,
         Turn.reader, Turn.reader, Turn.reader, Turn.reader, Turn.reader]).outs
      = (outs0 ++ [sh]) ++ [sh] ∧
    (run ⟨sh, none, w0, pend, pub, 0, buf0, outs0⟩
        [Turn.reader, Turn.reader, Turn.reader, Turn.reader, Turn.reader,
         Turn.reader, Turn.reader, Turn.reader, Turn.reader, Turn.reader]).shared
      = sh := by
  constructor <;> simp [run, step, readerStep]

/-! ## Time synchronization (`sntp.c`)

`wait_for_time_blocking` calls `esp_netif_sntp_sync_wait` with the given
timeout; if that fails it polls the system clock up to 10 times, 500 ms
apart, accepting a clock whose year is past the 2016 sentinel
(`ti.tm_year > (2016 - 1900)`), and otherwise logs a warning.  The
environment supplies the sync result and the clock's `tm_year` value at each
poll. -/

/-- What the OS shows `wait_for_time_blocking`: the result of
`esp_netif_sntp_sync_wait`, and `tm_year` (years since 1900) returned by
`time`/`localtime_r` at the `k`-th fallback poll. -/
structure ClockEnv where
  syncResult : esp_err_t
  yearAt : Nat → Int

/-- Observable behaviour of one `wait_for_time_blocking` call: whether the
final warning was logged, how many fallback polls ran, and how much delay
(`vTaskDelay`, in ms) the fallback added after the sync timeout. -/
structure WaitResult where
  warned : Bool
  polls : Nat
  delayMs : Nat
deriving DecidableEq, Repr

/-- The fallback loop `for (int retry = 0; retry < 10; ++retry)` of
`wait_for_time_blocking`, from iteration `retry` with `remaining` iterations
left: return early (no warning) when `tm_year > 2016 - 1900`, otherwise
sleep 500 ms and continue; warn when the iterations are exhausted. -/
def timeFallback (yearAt : Nat → Int) (retry : Nat) : Nat → WaitResult
  | 0 => ⟨true, 0, 0⟩
  | n + 1 =>
    if yearAt retry > (2016 - 1900 : Int) then ⟨false, 1, 0⟩
    else
      let rest := timeFallback yearAt (retry + 1) n
      ⟨rest.warned, rest.polls + 1, rest.delayMs + 500⟩

/-- `void wait_for_time_blocking(uint32_t timeout_ms)` from `sntp.c:41-63`:
returns at once when `esp_netif_sntp_sync_wait` succeeds, otherwise runs the
10-iteration fallback loop; in every case it returns to its caller (the
return type is `void`; no error is raised and no `ESP_ERROR_CHECK` is
involved). -/
def wait_for_time_blocking (env : ClockEnv) (_timeout_ms : Nat) : WaitResult :=
  if env.syncResult = ESP_OK then ⟨false, 0, 0⟩
  else timeFallback env.yearAt 0 10

/-- The fallback loop runs at most `remaining` polls and sleeps 500 ms after
each failed poll, never after a successful one. -/
theorem timeFallback_bounds (yearAt : Nat → Int) (retry n : Nat) :
    (timeFallback yearAt retry n).polls ≤ n ∧
    (timeFallback yearAt retry n).delayMs ≤ 500 * n := by
  induction n generalizing retry with
  | zero => exact ⟨Nat.le_refl 0, Nat.le_refl 0⟩
  | succ n ih =>
    have h := ih (retry + 1)
    simp only [timeFallback]
    split_ifs
    · dsimp only
      omega
    · dsimp only
      omega

/-- If some poll within the first `n` sees a plausible year, the loop returns
early without warning. -/
theorem timeFallback_early_return (yearAt : Nat → Int) (retry n : Nat)
    (hex : ∃ k < n, yearAt (retry + k) > (2016 - 1900 : Int)) :
    (timeFallback yearAt retry n).warned = false := by
  induction n generalizing retry with
  | zero => obtain ⟨k, hk, _⟩ := hex; omega
  | succ n ih =>
    simp only [timeFallback]
    split_ifs with h0
    · rfl
    · obtain ⟨k, hk, hy⟩ := hex
      have hk0 : k ≠ 0 := by
        intro hc; rw [hc] at hy; simp at hy; exact h0 hy
      dsimp only
      exact ih (retry + 1) ⟨k - 1, by omega, by
        have heq : retry + 1 + (k - 1) = retry + k := by omega
        rw [heq]; exact hy⟩

/-- If no poll sees a plausible year, the loop runs all `n` iterations and
warns. -/
theorem timeFallback_exhausted (yearAt : Nat → Int) (retry n : Nat)
    (hall : ∀ k < n, ¬ yearAt (retry + k) > (2016 - 1900 : Int)) :
    (timeFallback yearAt retry n).warned = true ∧
    (timeFallback yearAt retry n).polls = n ∧
    (timeFallback yearAt retry n).delayMs = 500 * n := by
  induction n generalizing retry with
  | zero => exact ⟨rfl, rfl, rfl⟩
  | succ n ih =>
    simp only [timeFallback]
    split_ifs with h0
    · exact absurd h0 (by simpa using hall 0 (by omega))
    · have h := ih (retry + 1) (fun k hk => by
        have heq : retry + 1 + k = retry + (k + 1) := by omega
        rw [heq]; exact hall (k + 1) (by omega))
      dsimp only
      exact ⟨h.1, by omega, by omega⟩

/-- **C7.** For every timeout and every clock behaviour,
`wait_for_time_blocking` returns: its fallback runs at most 10 polls, adding
at most 10 × 500 ms of delay; when the sync wait succeeds there is no
fallback and no warning; when it fails but some of the 10 polls sees a year
past the 2016 sentinel, the call returns early without warning; when no poll
passes, it runs all 10 polls and returns normally having logged the warning —
it never raises or returns an error to its caller. -/
theorem c7_wait_for_time_returns (env : ClockEnv) (timeout_ms : Nat) :
    (wait_for_time_blocking env timeout_ms).polls ≤ 10 ∧
    (wait_for_time_blocking env timeout_ms).delayMs ≤ 500 * 10 ∧
    (env.syncResult = ESP_OK →
      wait_for_time_blocking env timeout_ms = ⟨false, 0, 0⟩) ∧
    (env.syncResult ≠ ESP_OK →
      (∃ k < 10, env.yearAt k > (2016 - 1900 : Int)) →
        (wait_for_time_blocking env timeout_ms).warned = false) ∧
    (env.syncResult ≠ ESP_OK →
      (∀ k < 10, ¬ env.yearAt k > (2016 - 1900 : Int)) →
        (wait_for_time_blocking env timeout_ms).warned = true ∧
        (wait_for_time_blocking env timeout_ms).polls = 10 ∧
        (wait_for_time_blocking env timeout_ms).delayMs = 500 * 10) := by
  unfold wait_for_time_blocking
  split_ifs with hs
  · refine ⟨by dsimp only; omega, by dsimp only; omega, fun _ => rfl,
      fun hne _ => absurd hs hne, fun hne _ => absurd hs hne⟩
  · have hb := timeFallback_bounds env.yearAt 0 10
    refine ⟨hb.1, hb.2, fun hok => absurd hok hs, ?_, ?_⟩
    · intro _ hex
      exact timeFallback_early_return env.yearAt 0 10 (by simpa using hex)
    · intro _ hall
      exact timeFallback_exhausted env.yearAt 0 10 (by simpa using hall)

/-- **C7 witness.** Concrete clock: the sync wait fails and every poll sees
year 2000 (`tm_year = 100`): the call warns after exactly 10 polls and
5000 ms of fallback delay. -/
theorem c7_witness :
    (wait_for_time_blocking ⟨ESP_FAIL, fun _ => 100⟩ 10000).warned = true ∧
    (wait_for_time_blocking ⟨ESP_FAIL, fun _ => 100⟩ 10000).polls = 10 ∧
    (wait_for_time_blocking ⟨ESP_FAIL, fun _ => 100⟩ 10000).delayMs = 500 * 10 :=
  (c7_wait_for_time_returns ⟨ESP_FAIL, fun _ => 100⟩ 10000).2.2.2.2
    (by decide) (fun k _ => by show ¬ (100 : Int) > 2016 - 1900; decide)

/-! ## NVS initialization phase of `wifi_init_sta` (`wifi.c:58-65`)

```c
esp_err_t err = nvs_flash_init();
if (err == ESP_ERR_NVS_NO_FREE_PAGES || err == ESP_ERR_NVS_NEW_VERSION_FOUND) {
    ESP_ERROR_CHECK(nvs_flash_erase());
    ESP_ERROR_CHECK(nvs_flash_init());
}
```
Note that `err` is checked only against the two recovery conditions; any
other non-OK value falls through unchecked. -/

/-- Results the NVS layer returns: the first `nvs_flash_init`,
`nvs_flash_erase`, and the retried `nvs_flash_init`. -/
structure NvsEnv where
  firstInit : esp_err_t
  eraseResult : esp_err_t
  secondInit : esp_err_t

/-- Observable outcome of the NVS phase: whether an `ESP_ERROR_CHECK`
aborted the process, and how many `nvs_flash_init` / `nvs_flash_erase`
calls ran. -/
structure NvsOutcome where
  aborted : Bool
  initCalls : Nat
  eraseCalls : Nat
deriving DecidableEq, Repr

/-- The NVS initialization phase at the top of `wifi_init_sta`. -/
def nvs_init_phase (env : NvsEnv) : NvsOutcome :=
  if env.firstInit = ESP_ERR_NVS_NO_FREE_PAGES ∨
     env.firstInit = ESP_ERR_NVS_NEW_VERSION_FOUND then
    if env.eraseResult ≠ ESP_OK then ⟨true, 1, 1⟩
    else if env.secondInit ≠ ESP_OK then ⟨true, 2, 1⟩
    else ⟨false, 2, 1⟩
  else ⟨false, 1, 0⟩

/-- **C9 (counterexample).** The claim "any other failure (than
no-free-pages/new-version) is fatal and halts the process" is false on the
code: if the first `nvs_flash_init` returns `ESP_FAIL`, the result is never
checked — the phase continues (no abort) after that single failed call. -/
theorem c9_counterexample :
    nvs_init_phase ⟨ESP_FAIL, ESP_OK, ESP_OK⟩ = ⟨false, 1, 0⟩ ∧
    ESP_FAIL ≠ ESP_OK ∧
    ESP_FAIL ≠ ESP_ERR_NVS_NO_FREE_PAGES ∧
    ESP_FAIL ≠ ESP_ERR_NVS_NEW_VERSION_FOUND := by
  refine ⟨rfl, by decide, by decide, by decide⟩

/-- **C9 (amended).** The persistent store is initialized once; on the
no-free-pages / new-version condition it is erased and reinitialized exactly
once, and a failure of the erase or of the retried initialization is fatal
(aborts); any other result of the first initialization — success or failure —
is left unchecked and bring-up continues after that single call. -/
theorem c9_nvs_retry_once (env : NvsEnv) :
    (env.firstInit = ESP_ERR_NVS_NO_FREE_PAGES ∨
     env.firstInit = ESP_ERR_NVS_NEW_VERSION_FOUND →
      (env.eraseResult ≠ ESP_OK → nvs_init_phase env = ⟨true, 1, 1⟩) ∧
      (env.eraseResult = ESP_OK → env.secondInit ≠ ESP_OK →
        nvs_init_phase env = ⟨true, 2, 1⟩) ∧
      (env.eraseResult = ESP_OK → env.secondInit = ESP_OK →
        nvs_init_phase env = ⟨false, 2, 1⟩)) ∧
    (¬(env.firstInit = ESP_ERR_NVS_NO_FREE_PAGES ∨
       env.firstInit = ESP_ERR_NVS_NEW_VERSION_FOUND) →
      nvs_init_phase env = ⟨false, 1, 0⟩) := by
  unfold nvs_init_phase
  constructor
  · intro hc
    rw [if_pos hc]
    refine ⟨fun he => by rw [if_pos he], fun he hs => ?_, fun he hs => ?_⟩
    · rw [if_neg (by simp [he]), if_pos hs]
    · rw [if_neg (by simp [he]), if_neg (by simp [hs])]
  · intro hc
    rw [if_neg hc]

/-- **C9 witness.** Concrete instance: the first init reports no-free-pages,
erase and the retried init succeed — exactly two init calls and one erase,
no abort. -/
theorem c9_witness :
    nvs_init_phase ⟨ESP_ERR_NVS_NO_FREE_PAGES, ESP_OK, ESP_OK⟩ = ⟨false, 2, 1⟩ :=
  ((c9_nvs_retry_once ⟨ESP_ERR_NVS_NO_FREE_PAGES, ESP_OK, ESP_OK⟩).1
    (Or.inl rfl)).2.2 rfl rfl

/-! ## Sensor-string formatting in `print_data` (`main.c:99-106`)

```c
snprintf(temperature_str, ..., "Temp-%.1fC",  bme280_device_data.temperature);
snprintf(pressure_str,    ..., "Pres-%.2fhPa", bme280_device_data.pressure / 100.0);
snprintf(humidity_str,    ..., "Hum-%.1f%%",   bme280_device_data.humidity);
```
Doubles are modelled as exact rationals; `%.1f` / `%.2f` round the value to
the given number of decimals (the concrete values of the claim have no
rounding ties, so the rounding mode is immaterial). -/

/-- Left-pad a digit string with zeros to width `w`. -/
def padZeros (w : Nat) (s : String) : String :=
  String.mk (List.replicate (w - s.length) '0') ++ s

/-- `printf "%.{prec}f"`: fixed-point rendering of a rational with `prec`
digits after the point.  The value is scaled by `10 ^ prec` and rounded to
the nearest integer (computed on the numerator/denominator as
`⌊(2·num·10^prec + den) / (2·den)⌋`; the claim's concrete values have no
rounding ties, so the tie-breaking mode is immaterial). -/
def formatFixed (prec : Nat) (x : ℚ) : String :=
  let p : Int := ((10 ^ prec : Nat) : Int)
  let scaled : Int := Int.fdiv (2 * x.num * p + (x.den : Int)) (2 * (x.den : Int))
  let sign := if scaled < 0 then "-" else ""
  let m := scaled.natAbs
  sign ++ toString (m / 10 ^ prec) ++ "." ++ padZeros prec (toString (m % 10 ^ prec))

/-- The three local sensor strings of one `print_data` render pass. -/
structure SensorStrings where
  temperature_str : String
  pressure_str : String
  humidity_str : String
deriving DecidableEq, Repr

/-- The protected-read section of `print_data`: formats the snapshot of
`bme280_device_data` into the three display strings (the pressure is divided
by 100.0 before formatting with two decimals). -/
def renderSensorStrings (d : bme280_data) : SensorStrings :=
  ⟨"Temp-" ++ formatFixed 1 d.temperature ++ "C",
   "Pres-" ++ formatFixed 2 (d.pressure / 100) ++ "hPa",
   "Hum-" ++ formatFixed 1 d.humidity ++ "%"⟩

/-- **C4.** For the stored record {temperature = 21.3, pressure = 101325,
humidity = 45.0}, one render pass formats exactly the strings
"Temp-21.3C", "Pres-1013.25hPa" (pressure divided by 100, two decimals)
and "Hum-45.0%". -/
theorem c4_steady_state_strings :
    renderSensorStrings ⟨101325, 21.3, 45.0⟩ =
      ⟨"Temp-21.3C", "Pres-1013.25hPa", "Hum-45.0%"⟩ := by
  have ht : (21.3 : ℚ) = mkRat 213 10 := by norm_num [mkRat]
  have hh : (45.0 : ℚ) = mkRat 45 1 := by norm_num [mkRat]
  have hp : (101325 : ℚ) / 100 = mkRat 101325 100 := by norm_num [mkRat]
  simp only [renderSensorStrings, ht, hh, hp]
  decide

end ESP32TW
